import Mathlib

/-!
Shallow embedding of the data-access layer in
`next-top-model/src-tauri/src/lib.rs`: a read-only SQLite query service
exposing `get_teams`, `get_games`, `get_team_season_stats`,
`get_team_game_stats` and `test_db_connection`.

The Rust code composes SQL strings from optional filter arguments, binds
positional parameters, and maps result rows to typed records.  We embed:

* the query composition (string and bound-parameter list) byte-for-byte
  from the source literals;
* a model of the SQLite engine for the SQL fragment the code emits
  (conjunctions of equality / disjunction-of-equality conditions with
  positional `?` parameters, three-valued NULL logic, and `ORDER BY`);
* the row-to-record mapping (`rusqlite` `FromSql` conversions, with the
  first failing column aborting the whole call);
* the connection bootstrap and the diagnostic health check, with the
  external world (file existence, engine open/validation outcomes)
  modelled as an explicit environment.

IEEE-754 doubles (`f64`) are modelled opaquely: the code performs no
arithmetic on them, it only stores and returns them.
-/

/-- Opaque model of an IEEE-754 double (`f64`).  `ofBits` is a stored REAL
value (by bit pattern), `ofInt` is the value produced by the engine's
integer-to-double conversion (`i as f64` in `rusqlite`'s `FromSql` for
`f64`).  No claim depends on float arithmetic or on cross-representation
equality, so the two provenances are kept apart. -/
inductive F64 where
  | ofBits (bits : Nat)
  | ofInt (i : Int)
  deriving DecidableEq, Repr

/-- A dynamically-typed SQLite storage value (the BLOB class does not occur
in this schema and is omitted). -/
inductive SqlValue where
  | null
  | integer (i : Int)
  | real (r : F64)
  | text (s : String)
  deriving DecidableEq, Repr

/-- Model of `rusqlite::Error` for the variants this code constructs or
propagates: `SqliteFailure` with an extended result code and optional
message, and `engine` for an error produced by the engine itself (carrying
its display text). -/
inductive RusqliteError where
  | sqliteFailure (code : Nat) (message : Option String)
  | engine (message : String)
  deriving DecidableEq, Repr

/-- The SQLite primary result code `SQLITE_CANTOPEN`. -/
def SQLITE_CANTOPEN : Nat := 14

/-- The display text of a `rusqlite` error (`Error`'s `Display` impl shows
the attached message of a `SqliteFailure` when one is present). -/
def RusqliteError.errorText : RusqliteError → String
  | .sqliteFailure _ (some m) => m
  | .sqliteFailure code none => "sqlite error code " ++ toString code
  | .engine m => m

/-- The hardcoded database path (`lib.rs` lines 61 and 337). -/
def db_path : String := "/Volumes/Extreme SSD/next_top_model/backend/nfl_data.db"

/-- One `AND` condition appended to a `WHERE` clause by the
query-composing functions: either `col = ?` or `(col1 = ? OR col2 = ?)`. -/
inductive SqlCond where
  | colEqParam (col : String)
  | orEqParam (col1 col2 : String)
  deriving DecidableEq, Repr

/-- The SQL text a condition contributes to the query string. -/
def SqlCond.renderSql : SqlCond → String
  | .colEqParam col => " AND " ++ col ++ " = ?"
  | .orEqParam c1 c2 => " AND (" ++ c1 ++ " = ? OR " ++ c2 ++ " = ?)"

/-- The number of positional `?` parameters a condition consumes. -/
def SqlCond.arity : SqlCond → Nat
  | .colEqParam _ => 1
  | .orEqParam _ _ => 2

/-- A query under composition: the SQL text built by `push_str`, the
structured view of the appended conditions, and the bound-parameter list
built by `params.push`.  The `sql` field is kept in lockstep with
`conds`/`params` by `pushFilter`. -/
structure ComposedQuery where
  sql : String
  conds : List SqlCond
  params : List SqlValue
  deriving Repr

/-- One `if let Some(v) = filter { query.push_str(...); params.push(...) }`
block: appends the condition's SQL text, records the condition, and appends
its bound values. -/
def pushFilter (q : ComposedQuery) (c : SqlCond) (vs : List SqlValue) : ComposedQuery :=
  { sql := q.sql ++ c.renderSql, conds := q.conds ++ [c], params := q.params ++ vs }

/-- The fixed SQL of `get_teams` (`lib.rs` lines 89-94), including its
hardcoded `ORDER BY`. -/
def teamsSql : String :=
  "\n        SELECT team_uid, city, name, abbreviation, stadium_name, \n               stadium_capacity, conference, division \n        FROM teams \n        ORDER BY conference, division, name\n    "

/-- The base SELECT of `get_games` (`lib.rs` lines 136-141). -/
def gamesBaseSql : String :=
  "\n        SELECT game_uid, season, week, game_type, home_team_uid, away_team_uid,\n               game_datetime, venue, home_score, away_score, overtime, weather_temp, weather_condition, attendance\n        FROM games\n        WHERE 1=1\n    "

/-- The base SELECT of `get_team_season_stats` (`lib.rs` lines 210-214). -/
def seasonStatsBaseSql : String :=
  "\n        SELECT stat_uid, team_uid, season, wins, losses, ties, win_percentage\n        FROM team_season_stats\n        WHERE 1=1\n    "

/-- The base SELECT of `get_team_game_stats` (`lib.rs` lines 275-280). -/
def gameStatsBaseSql : String :=
  "\n        SELECT stat_uid, game_uid, team_uid, is_home_team, total_yards, \n               passing_yards, rushing_yards, first_downs, turnovers, penalties\n        FROM team_game_stats\n        WHERE 1=1\n    "

/-- Query composition of `get_games` (`lib.rs` lines 136-156): optional
`season` and `team_uid` filters, the latter a two-sided home/away
disjunction binding the same value twice, then the fixed `ORDER BY`. -/
def get_games_query (season : Option Int) (team_uid : Option String) : ComposedQuery :=
  let q : ComposedQuery := { sql := gamesBaseSql, conds := [], params := [] }
  let q := match season with
    | some s => pushFilter q (.colEqParam "season") [.integer s]
    | none => q
  let q := match team_uid with
    | some team => pushFilter q (.orEqParam "home_team_uid" "away_team_uid")
        [.text team, .text team]
    | none => q
  { q with sql := q.sql ++ " ORDER BY game_datetime DESC" }

/-- Query composition of `get_team_season_stats` (`lib.rs` lines 210-228):
optional `season` and `team_uid` filters, both plain equalities, then the
fixed `ORDER BY`. -/
def get_team_season_stats_query (season : Option Int) (team_uid : Option String) :
    ComposedQuery :=
  let q : ComposedQuery := { sql := seasonStatsBaseSql, conds := [], params := [] }
  let q := match season with
    | some s => pushFilter q (.colEqParam "season") [.integer s]
    | none => q
  let q := match team_uid with
    | some team => pushFilter q (.colEqParam "team_uid") [.text team]
    | none => q
  { q with sql := q.sql ++ " ORDER BY season DESC, win_percentage DESC" }

/-- Query composition of `get_team_game_stats` (`lib.rs` lines 275-294):
optional `game_uid` and `team_uid` filters, both plain equalities, then the
fixed `ORDER BY`. -/
def get_team_game_stats_query (game_uid : Option String) (team_uid : Option String) :
    ComposedQuery :=
  let q : ComposedQuery := { sql := gameStatsBaseSql, conds := [], params := [] }
  let q := match game_uid with
    | some game => pushFilter q (.colEqParam "game_uid") [.text game]
    | none => q
  let q := match team_uid with
    | some team => pushFilter q (.colEqParam "team_uid") [.text team]
    | none => q
  { q with sql := q.sql ++ " ORDER BY game_uid DESC" }

/-- The number of `?` placeholders in a SQL string. -/
def countPlaceholders (s : String) : Nat := s.data.count '?'

/-- The number of (possibly overlapping) occurrences of a pattern in a
character list; used to count ` AND ` clauses. -/
def countSubstrOcc (pat : List Char) : List Char → Nat
  | [] => 0
  | c :: rest => (if pat.isPrefixOf (c :: rest) then 1 else 0) + countSubstrOcc pat rest

/-- The number of ` AND ` clauses in a SQL string. -/
def countAndClauses (s : String) : Nat := countSubstrOcc " AND ".data s.data

/-- SQLite three-valued equality (`none` is the SQL NULL truth value):
comparison with NULL is NULL; same-class values compare by value.  This
layer only ever compares an INTEGER parameter with the `season` column and
TEXT parameters with uid columns, so SQLite's numeric affinity between
INTEGER and REAL is not modelled: mixed-class comparisons are false. -/
def sqlEq : SqlValue → SqlValue → Option Bool
  | .null, _ => none
  | _, .null => none
  | .integer i, .integer j => some (i == j)
  | .real a, .real b => some (a == b)
  | .text s, .text t => some (s == t)
  | _, _ => some false

/-- SQLite three-valued OR: true if either side is true, NULL if neither is
true and either side is NULL, else false. -/
def sqlOr : Option Bool → Option Bool → Option Bool
  | some true, _ => some true
  | _, some true => some true
  | none, _ => none
  | _, none => none
  | _, _ => some false

/-- Evaluate one condition against its slice of the positional parameters
and a row (given as a column-name-to-value lookup), in three-valued logic.
A parameter-count mismatch (which the arity bookkeeping rules out) yields
NULL. -/
def SqlCond.eval3 (c : SqlCond) (ps : List SqlValue) (row : String → SqlValue) :
    Option Bool :=
  match c, ps with
  | .colEqParam col, [v] => sqlEq (row col) v
  | .orEqParam c1 c2, [v1, v2] => sqlOr (sqlEq (row c1) v1) (sqlEq (row c2) v2)
  | _, _ => none

/-- A row satisfies a `WHERE 1=1 AND c1 AND c2 ...` clause exactly when
every appended condition evaluates to true (a NULL conjunct, like a false
one, excludes the row).  Parameters are consumed positionally, each
condition taking its arity's worth. -/
def rowSelected : List SqlCond → List SqlValue → (String → SqlValue) → Bool
  | [], _, _ => true
  | c :: cs, ps, row =>
      (c.eval3 (ps.take c.arity) row == some true) && rowSelected cs (ps.drop c.arity) row

/-- Total parameter arity of a condition list. -/
def totalArity (cs : List SqlCond) : Nat := (cs.map SqlCond.arity).sum

/-- A total order on the opaque doubles, used only to make the engine's
sort comparator total; no claim sorts on a REAL column (SQLite would order
reals numerically). -/
def F64.le : F64 → F64 → Bool
  | .ofInt i, .ofInt j => decide (i ≤ j)
  | .ofInt _, .ofBits _ => true
  | .ofBits _, .ofInt _ => false
  | .ofBits a, .ofBits b => decide (a ≤ b)

/-- SQLite's cross-class storage order for `ORDER BY ... ASC`: NULL first,
then the numeric class, then TEXT (BINARY collation, which on the UTF-8
text compared here agrees with Lean's lexicographic `String` order).
Within the numeric class the INTEGER/REAL interleaving is a model-internal
tie-break (no composed query orders by a numeric column across classes). -/
def SqlValue.le : SqlValue → SqlValue → Bool
  | .null, _ => true
  | .integer _, .null => false
  | .integer i, .integer j => decide (i ≤ j)
  | .integer _, _ => true
  | .real _, .null => false
  | .real _, .integer _ => false
  | .real a, .real b => F64.le a b
  | .real _, .text _ => true
  | .text s, .text t => decide (s ≤ t)
  | .text _, _ => false

/-- A stored row of the `teams` table, in declared column order. -/
structure TeamRow where
  team_uid : SqlValue
  city : SqlValue
  name : SqlValue
  abbreviation : SqlValue
  stadium_name : SqlValue
  stadium_capacity : SqlValue
  conference : SqlValue
  division : SqlValue
  deriving DecidableEq, Repr

/-- A stored row of the `games` table, in declared column order. -/
structure GameRow where
  game_uid : SqlValue
  season : SqlValue
  week : SqlValue
  game_type : SqlValue
  home_team_uid : SqlValue
  away_team_uid : SqlValue
  game_datetime : SqlValue
  venue : SqlValue
  home_score : SqlValue
  away_score : SqlValue
  overtime : SqlValue
  weather_temp : SqlValue
  weather_condition : SqlValue
  attendance : SqlValue
  deriving DecidableEq, Repr

/-- A stored row of the `team_season_stats` table. -/
structure SeasonStatRow where
  stat_uid : SqlValue
  team_uid : SqlValue
  season : SqlValue
  wins : SqlValue
  losses : SqlValue
  ties : SqlValue
  win_percentage : SqlValue
  deriving DecidableEq, Repr

/-- A stored row of the `team_game_stats` table. -/
structure GameStatRow where
  stat_uid : SqlValue
  game_uid : SqlValue
  team_uid : SqlValue
  is_home_team : SqlValue
  total_yards : SqlValue
  passing_yards : SqlValue
  rushing_yards : SqlValue
  first_downs : SqlValue
  turnovers : SqlValue
  penalties : SqlValue
  deriving DecidableEq, Repr

/-- Column lookup on a `games` row (columns outside the schema never occur
in the composed conditions). -/
def GameRow.col (r : GameRow) : String → SqlValue
  | "game_uid" => r.game_uid
  | "season" => r.season
  | "week" => r.week
  | "game_type" => r.game_type
  | "home_team_uid" => r.home_team_uid
  | "away_team_uid" => r.away_team_uid
  | "game_datetime" => r.game_datetime
  | "venue" => r.venue
  | "home_score" => r.home_score
  | "away_score" => r.away_score
  | "overtime" => r.overtime
  | "weather_temp" => r.weather_temp
  | "weather_condition" => r.weather_condition
  | "attendance" => r.attendance
  | _ => .null

/-- Column lookup on a `teams` row. -/
def TeamRow.col (r : TeamRow) : String → SqlValue
  | "team_uid" => r.team_uid
  | "city" => r.city
  | "name" => r.name
  | "abbreviation" => r.abbreviation
  | "stadium_name" => r.stadium_name
  | "stadium_capacity" => r.stadium_capacity
  | "conference" => r.conference
  | "division" => r.division
  | _ => .null

/-- Column lookup on a `team_season_stats` row. -/
def SeasonStatRow.col (r : SeasonStatRow) : String → SqlValue
  | "stat_uid" => r.stat_uid
  | "team_uid" => r.team_uid
  | "season" => r.season
  | "wins" => r.wins
  | "losses" => r.losses
  | "ties" => r.ties
  | "win_percentage" => r.win_percentage
  | _ => .null

/-- Column lookup on a `team_game_stats` row. -/
def GameStatRow.col (r : GameStatRow) : String → SqlValue
  | "stat_uid" => r.stat_uid
  | "game_uid" => r.game_uid
  | "team_uid" => r.team_uid
  | "is_home_team" => r.is_home_team
  | "total_yards" => r.total_yards
  | "passing_yards" => r.passing_yards
  | "rushing_yards" => r.rushing_yards
  | "first_downs" => r.first_downs
  | "turnovers" => r.turnovers
  | "penalties" => r.penalties
  | _ => .null

/-- `ORDER BY game_datetime DESC`: descending storage order on the
datetime column (NULLs last, as SQLite places them in DESC). -/
def gameDatetimeDescLe (a b : GameRow) : Bool :=
  SqlValue.le b.game_datetime a.game_datetime

/-- `ORDER BY conference, division, name`: ascending lexicographic order
on the three columns. -/
def teamsLe (a b : TeamRow) : Bool :=
  if a.conference = b.conference then
    if a.division = b.division then SqlValue.le a.name b.name
    else SqlValue.le a.division b.division
  else SqlValue.le a.conference b.conference

/-- `ORDER BY season DESC, win_percentage DESC`. -/
def seasonStatsDescLe (a b : SeasonStatRow) : Bool :=
  if a.season = b.season then SqlValue.le b.win_percentage a.win_percentage
  else SqlValue.le b.season a.season

/-- `ORDER BY game_uid DESC`. -/
def gameStatsDescLe (a b : GameStatRow) : Bool :=
  SqlValue.le b.game_uid a.game_uid

/-- Model of the SQLite engine executing a composed read-only query:
preparation succeeds (the SQL composed here is well-formed); binding fails
with `rusqlite`'s `InvalidParameterCount` display text when the number of
bound values differs from the number of `?` placeholders in the SQL text;
otherwise the matching rows are returned in `ORDER BY` order (the engine
promises sortedness, not stability; `mergeSort` is this model's concrete
choice of a sorted permutation). -/
def runSelect {ρ : Type} (q : ComposedQuery) (orderLe : ρ → ρ → Bool)
    (col : ρ → String → SqlValue) (rows : List ρ) : Except String (List ρ) :=
  if q.params.length ≠ countPlaceholders q.sql then
    .error "Wrong number of parameters passed to query. Got 1, needed 0"
  else
    .ok ((rows.filter (fun r => rowSelected q.conds q.params (col r))).mergeSort orderLe)

/-- The `Team` record (`lib.rs` lines 5-15). -/
structure Team where
  team_uid : String
  city : Option String
  name : String
  abbreviation : Option String
  stadium_name : Option String
  stadium_capacity : Option Int
  conference : Option String
  division : Option String
  deriving DecidableEq, Repr

/-- The `Game` record (`lib.rs` lines 17-33). -/
structure Game where
  game_uid : String
  season : Int
  week : Option F64
  game_type : Option String
  home_team_uid : Option String
  away_team_uid : Option String
  game_datetime : Option String
  venue : Option String
  home_score : Option Int
  away_score : Option Int
  overtime : Option Int
  weather_temp : Option F64
  weather_condition : Option String
  attendance : Option Int
  deriving DecidableEq, Repr

/-- The `TeamGameStat` record (`lib.rs` lines 35-47). -/
structure TeamGameStat where
  stat_uid : String
  game_uid : String
  team_uid : String
  is_home_team : Option Int
  total_yards : Option Int
  passing_yards : Option Int
  rushing_yards : Option Int
  first_downs : Option Int
  turnovers : Option Int
  penalties : Option Int
  deriving DecidableEq, Repr

/-- The `TeamSeasonStat` record (`lib.rs` lines 49-58). -/
structure TeamSeasonStat where
  stat_uid : String
  team_uid : String
  season : Int
  wins : Option Int
  losses : Option Int
  ties : Option Int
  win_percentage : Option F64
  deriving DecidableEq, Repr

/-- `rusqlite` `FromSql` for `String`: only TEXT converts. -/
def getText : SqlValue → Except String String
  | .text s => .ok s
  | _ => .error "Invalid column type"

/-- The `i32` range bounds checked by `rusqlite`'s `FromSql` for `i32`. -/
def i32Min : Int := -(2 ^ 31)

def i32Max : Int := 2 ^ 31 - 1

/-- `rusqlite` `FromSql` for `i32`: only INTEGER converts, and only within
the `i32` range. -/
def getI32 : SqlValue → Except String Int
  | .integer i =>
      if i32Min ≤ i ∧ i ≤ i32Max then .ok i else .error "Integral value out of range"
  | _ => .error "Invalid column type"

/-- `rusqlite` `FromSql` for `f64`: REAL converts as is, INTEGER through
the engine's integer-to-double cast. -/
def getF64 : SqlValue → Except String F64
  | .real r => .ok r
  | .integer i => .ok (.ofInt i)
  | _ => .error "Invalid column type"

/-- `rusqlite` `FromSql` for `Option<T>`: NULL is `None`, anything else
converts through `T`. -/
def getOptText : SqlValue → Except String (Option String)
  | .null => .ok none
  | v => (getText v).map some

/-- `Option<i32>` conversion. -/
def getOptI32 : SqlValue → Except String (Option Int)
  | .null => .ok none
  | v => (getI32 v).map some

/-- `Option<f64>` conversion. -/
def getOptF64 : SqlValue → Except String (Option F64)
  | .null => .ok none
  | v => (getF64 v).map some

/-- The row-mapping closure of `get_teams` (`lib.rs` lines 99-109):
`row.get(0)` .. `row.get(7)` in SELECT column order, the first failing
column aborting the row. -/
def decodeTeam (r : TeamRow) : Except String Team := do
  let team_uid ← getText r.team_uid
  let city ← getOptText r.city
  let name ← getText r.name
  let abbreviation ← getOptText r.abbreviation
  let stadium_name ← getOptText r.stadium_name
  let stadium_capacity ← getOptI32 r.stadium_capacity
  let conference ← getOptText r.conference
  let division ← getOptText r.division
  pure { team_uid, city, name, abbreviation, stadium_name, stadium_capacity,
         conference, division }

/-- The row-mapping closure of `get_games` (`lib.rs` lines 167-183). -/
def decodeGame (r : GameRow) : Except String Game := do
  let game_uid ← getText r.game_uid
  let season ← getI32 r.season
  let week ← getOptF64 r.week
  let game_type ← getOptText r.game_type
  let home_team_uid ← getOptText r.home_team_uid
  let away_team_uid ← getOptText r.away_team_uid
  let game_datetime ← getOptText r.game_datetime
  let venue ← getOptText r.venue
  let home_score ← getOptI32 r.home_score
  let away_score ← getOptI32 r.away_score
  let overtime ← getOptI32 r.overtime
  let weather_temp ← getOptF64 r.weather_temp
  let weather_condition ← getOptText r.weather_condition
  let attendance ← getOptI32 r.attendance
  pure { game_uid, season, week, game_type, home_team_uid, away_team_uid,
         game_datetime, venue, home_score, away_score, overtime, weather_temp,
         weather_condition, attendance }

/-- The row-mapping closure of `get_team_season_stats` (`lib.rs` lines
239-248). -/
def decodeSeasonStat (r : SeasonStatRow) : Except String TeamSeasonStat := do
  let stat_uid ← getText r.stat_uid
  let team_uid ← getText r.team_uid
  let season ← getI32 r.season
  let wins ← getOptI32 r.wins
  let losses ← getOptI32 r.losses
  let ties ← getOptI32 r.ties
  let win_percentage ← getOptF64 r.win_percentage
  pure { stat_uid, team_uid, season, wins, losses, ties, win_percentage }

/-- The row-mapping closure of `get_team_game_stats` (`lib.rs` lines
305-317). -/
def decodeGameStat (r : GameStatRow) : Except String TeamGameStat := do
  let stat_uid ← getText r.stat_uid
  let game_uid ← getText r.game_uid
  let team_uid ← getText r.team_uid
  let is_home_team ← getOptI32 r.is_home_team
  let total_yards ← getOptI32 r.total_yards
  let passing_yards ← getOptI32 r.passing_yards
  let rushing_yards ← getOptI32 r.rushing_yards
  let first_downs ← getOptI32 r.first_downs
  let turnovers ← getOptI32 r.turnovers
  let penalties ← getOptI32 r.penalties
  pure { stat_uid, game_uid, team_uid, is_home_team, total_yards, passing_yards,
         rushing_yards, first_downs, turnovers, penalties }

/-- The external world as this layer observes it: whether the database
file exists at the configured path, and the engine's outcome for the
connection open, the `SELECT 1` validation (including decoding its `i32`
result), and the health check's `SELECT COUNT(*) FROM games` preparation
and row fetch (including decoding its `i64` count).  Error outcomes carry
the engine's display text. -/
structure Env where
  fileExists : Bool
  openResult : Except String Unit
  validateResult : Except String Unit
  countPrepareResult : Except String Unit
  countRowResult : Except String Int
  deriving Repr

/-- `get_db_connection` (`lib.rs` lines 60-78): check the file exists
(else a `SqliteFailure` with code `SQLITE_CANTOPEN` and the message
`Database file not found` — the path goes only to the stderr log), then
open and validate with `SELECT 1`, propagating any engine error. -/
def get_db_connection (env : Env) : Except RusqliteError Unit :=
  if !env.fileExists then
    .error (.sqliteFailure SQLITE_CANTOPEN (some "Database file not found"))
  else
    match env.openResult with
    | .error e => .error (.engine e)
    | .ok () =>
      match env.validateResult with
      | .error e => .error (.engine e)
      | .ok () => .ok ()

/-- The stored database: one list of rows per table. -/
structure Database where
  teams : List TeamRow
  games : List GameRow
  team_season_stats : List SeasonStatRow
  team_game_stats : List GameStatRow

/-- `get_teams` (`lib.rs` lines 80-125): connect, run the fixed teams
query, decode each row; every error is flattened to its display string. -/
def get_teams (env : Env) (db : Database) : Except String (List Team) := do
  let _ ← (get_db_connection env).mapError RusqliteError.errorText
  let rows ← runSelect { sql := teamsSql, conds := [], params := [] } teamsLe
    TeamRow.col db.teams
  rows.mapM decodeTeam

/-- `get_games` (`lib.rs` lines 127-199): connect, compose the filtered
query, run it, decode each row in result order. -/
def get_games (env : Env) (db : Database) (season : Option Int)
    (team_uid : Option String) : Except String (List Game) := do
  let _ ← (get_db_connection env).mapError RusqliteError.errorText
  let rows ← runSelect (get_games_query season team_uid) gameDatetimeDescLe
    GameRow.col db.games
  rows.mapM decodeGame

/-- `get_team_season_stats` (`lib.rs` lines 201-264). -/
def get_team_season_stats (env : Env) (db : Database) (season : Option Int)
    (team_uid : Option String) : Except String (List TeamSeasonStat) := do
  let _ ← (get_db_connection env).mapError RusqliteError.errorText
  let rows ← runSelect (get_team_season_stats_query season team_uid) seasonStatsDescLe
    SeasonStatRow.col db.team_season_stats
  rows.mapM decodeSeasonStat

/-- `get_team_game_stats` (`lib.rs` lines 266-333). -/
def get_team_game_stats (env : Env) (db : Database) (game_uid : Option String)
    (team_uid : Option String) : Except String (List TeamGameStat) := do
  let _ ← (get_db_connection env).mapError RusqliteError.errorText
  let rows ← runSelect (get_team_game_stats_query game_uid team_uid) gameStatsDescLe
    GameStatRow.col db.team_game_stats
  rows.mapM decodeGameStat

/-- `test_db_connection` (`lib.rs` lines 335-360): the diagnostic health
check.  Every outcome is folded into the `Ok` payload: a missing file
reports the configured path, a connection failure reports the engine's
error text, a count-query failure reports the engine's error text, and a
healthy database reports the row count of `games`. -/
def test_db_connection (env : Env) : Except String String :=
  if !env.fileExists then
    .ok ("Database file not found at: " ++ db_path)
  else
    match get_db_connection env with
    | .ok () =>
      match env.countPrepareResult with
      | .ok () =>
        match env.countRowResult with
        | .ok count => .ok ("Database connected successfully. Games count: " ++ toString count)
        | .error e => .ok ("Error querying games: " ++ e)
      | .error e => .ok ("Error preparing query: " ++ e)
    | .error e => .ok ("Database connection error: " ++ RusqliteError.errorText e)

/-- Spec-side predicate, from the claim's words: a games row satisfies the
conjunction of the present filters — season equal to the given season if
present, and the given team uid equal to the home or the away team if
present. -/
def specGameMatches (season : Option Int) (team_uid : Option String) (r : GameRow) : Bool :=
  (match season with
   | none => true
   | some s => r.season == .integer s) &&
  (match team_uid with
   | none => true
   | some t => r.home_team_uid == .text t || r.away_team_uid == .text t)

/-- Spec-side predicate: a stats row whose `team_uid` column equals the
given value (the plain single-column equality of C10). -/
def specSeasonStatMatches (season : Option Int) (team_uid : Option String)
    (r : SeasonStatRow) : Bool :=
  (match season with
   | none => true
   | some s => r.season == .integer s) &&
  (match team_uid with
   | none => true
   | some t => r.team_uid == .text t)

/-- Spec-side predicate for `team_game_stats` rows. -/
def specGameStatMatches (game_uid : Option String) (team_uid : Option String)
    (r : GameStatRow) : Bool :=
  (match game_uid with
   | none => true
   | some g => r.game_uid == .text g) &&
  (match team_uid with
   | none => true
   | some t => r.team_uid == .text t)

theorem f64_le_total (a b : F64) : F64.le a b || F64.le b a := by
  cases a <;> cases b <;> simp [F64.le] <;> omega

theorem f64_le_trans (a b c : F64) : F64.le a b → F64.le b c → F64.le a c := by
  cases a <;> cases b <;> cases c <;> simp [F64.le] <;> omega

theorem f64_le_antisymm (a b : F64) : F64.le a b → F64.le b a → a = b := by
  cases a <;> cases b <;> simp [F64.le] <;> omega

theorem sqlValue_le_total (a b : SqlValue) : SqlValue.le a b || SqlValue.le b a := by
  cases a <;> cases b <;> simp [SqlValue.le, f64_le_total, Int.le_total, le_total]

theorem sqlValue_le_trans (a b c : SqlValue) :
    SqlValue.le a b → SqlValue.le b c → SqlValue.le a c := by
  cases a <;> cases b <;> cases c <;> simp [SqlValue.le]
  case integer.integer.integer => omega
  case real.real.real x y z => exact f64_le_trans x y z
  case text.text.text s t u => exact fun h1 h2 => le_trans h1 h2

theorem sqlValue_le_antisymm (a b : SqlValue) :
    SqlValue.le a b → SqlValue.le b a → a = b := by
  cases a <;> cases b <;> simp [SqlValue.le]
  case integer.integer => omega
  case real.real x y => exact f64_le_antisymm x y
  case text.text s t =>
    intro h1 h2
    have h := le_antisymm h1 h2
    cases s; cases t
    exact congrArg String.mk (by simpa using h)

theorem exceptBind_ok {ε α β : Type} {e : Except ε α} {k : α → Except ε β} {b : β} :
    (e >>= k) = .ok b ↔ ∃ a, e = .ok a ∧ k a = .ok b := by
  cases e <;> simp [Bind.bind, Except.bind]

theorem mapM_ok_length {α β ε : Type} {f : α → Except ε β} :
    ∀ {l : List α} {ys : List β}, l.mapM f = .ok ys → ys.length = l.length := by
  intro l
  induction l with
  | nil =>
      intro ys h
      simp [List.mapM, List.mapM.loop, pure, Except.pure] at h
      simp [← h]
  | cons x xs ih =>
      intro ys h
      rw [List.mapM_cons, exceptBind_ok] at h
      obtain ⟨y, hy, h⟩ := h
      rw [exceptBind_ok] at h
      obtain ⟨zs, hzs, h⟩ := h
      simp [pure, Except.pure] at h
      subst h
      simp [ih hzs]

theorem mapM_ok_mem {α β ε : Type} {f : α → Except ε β} :
    ∀ {l : List α} {ys : List β}, l.mapM f = .ok ys → ∀ x ∈ l, ∃ y, f x = .ok y := by
  intro l
  induction l with
  | nil => intro ys _ x hx; cases hx
  | cons z zs ih =>
      intro ys h x hx
      rw [List.mapM_cons, exceptBind_ok] at h
      obtain ⟨y, hy, h⟩ := h
      rw [exceptBind_ok] at h
      obtain ⟨ws, hws, _⟩ := h
      rcases List.mem_cons.mp hx with rfl | hx
      · exact ⟨y, hy⟩
      · exact ih hws x hx

theorem mapM_not_ok {α β ε : Type} {f : α → Except ε β} {l : List α} {x : α}
    (hx : x ∈ l) (hfail : ∀ y, f x ≠ .ok y) : ∀ ys, l.mapM f ≠ .ok ys := by
  intro ys h
  obtain ⟨y, hy⟩ := mapM_ok_mem h x hx
  exact hfail y hy

theorem count_filter_eq {α : Type} [DecidableEq α] (p : α → Bool) (l : List α) (a : α) :
    (l.filter p).count a = if p a then l.count a else 0 := by
  by_cases h : p a
  · simp [h, List.count_filter]
  · simp [h]
    rw [List.count_eq_zero]
    intro hmem
    exact h (List.mem_filter.mp hmem).2

theorem sqlEq_integer_beq_true (v : SqlValue) (s : Int) :
    (sqlEq v (.integer s) == some true) = (v == .integer s) := by
  cases v <;> simp [sqlEq]

theorem sqlEq_text_beq_true (v : SqlValue) (t : String) :
    (sqlEq v (.text t) == some true) = (v == .text t) := by
  cases v <;> simp [sqlEq]

theorem sqlOr_beq_true (a b : Option Bool) :
    (sqlOr a b == some true) = ((a == some true) || (b == some true)) := by
  revert a b; decide

/-- The composed `get_games` conditions, evaluated positionally against
the composed parameters, agree with the spec-side conjunction of present
filters on every row. -/
theorem gamesConds_eval (season : Option Int) (team_uid : Option String) (r : GameRow) :
    rowSelected (get_games_query season team_uid).conds
      (get_games_query season team_uid).params r.col = specGameMatches season team_uid r := by
  cases season <;> cases team_uid <;>
    simp [get_games_query, pushFilter, rowSelected, SqlCond.eval3, SqlCond.arity,
      specGameMatches, GameRow.col, sqlOr_beq_true, sqlEq_integer_beq_true,
      sqlEq_text_beq_true]

/-- The composed `get_team_season_stats` conditions agree with the
spec-side conjunction on every row. -/
theorem seasonStatsConds_eval (season : Option Int) (team_uid : Option String)
    (r : SeasonStatRow) :
    rowSelected (get_team_season_stats_query season team_uid).conds
      (get_team_season_stats_query season team_uid).params r.col
      = specSeasonStatMatches season team_uid r := by
  cases season <;> cases team_uid <;>
    simp [get_team_season_stats_query, pushFilter, rowSelected, SqlCond.eval3,
      SqlCond.arity, specSeasonStatMatches, SeasonStatRow.col, sqlEq_integer_beq_true,
      sqlEq_text_beq_true]

/-- The composed `get_team_game_stats` conditions agree with the spec-side
conjunction on every row. -/
theorem gameStatsConds_eval (game_uid : Option String) (team_uid : Option String)
    (r : GameStatRow) :
    rowSelected (get_team_game_stats_query game_uid team_uid).conds
      (get_team_game_stats_query game_uid team_uid).params r.col
      = specGameStatMatches game_uid team_uid r := by
  cases game_uid <;> cases team_uid <;>
    simp [get_team_game_stats_query, pushFilter, rowSelected, SqlCond.eval3,
      SqlCond.arity, specGameStatMatches, GameStatRow.col, sqlEq_text_beq_true]


theorem lexBool_total {α : Type} (k : α → SqlValue) (rest : α → α → Bool)
    (hrest : ∀ x y, (rest x y || rest y x) = true) (a b : α) :
    ((if k a = k b then rest a b else SqlValue.le (k a) (k b)) ||
     (if k b = k a then rest b a else SqlValue.le (k b) (k a))) = true := by
  rcases eq_or_ne (k a) (k b) with h | h
  · rw [if_pos h, if_pos h.symm]; exact hrest a b
  · rw [if_neg h, if_neg (Ne.symm h)]; exact sqlValue_le_total (k a) (k b)

theorem lexBool_trans {α : Type} (k : α → SqlValue) (rest : α → α → Bool)
    (hrest : ∀ x y z, rest x y = true → rest y z = true → rest x z = true) (a b c : α) :
    (if k a = k b then rest a b else SqlValue.le (k a) (k b)) = true →
    (if k b = k c then rest b c else SqlValue.le (k b) (k c)) = true →
    (if k a = k c then rest a c else SqlValue.le (k a) (k c)) = true := by
  rcases eq_or_ne (k a) (k b) with h1 | h1 <;> rcases eq_or_ne (k b) (k c) with h2 | h2
  · rw [if_pos h1, if_pos h2, if_pos (h1.trans h2)]
    exact hrest a b c
  · rw [if_pos h1, if_neg h2, if_neg (fun hac => h2 (h1.symm.trans hac))]
    intro _ hbc
    rw [h1]
    exact hbc
  · rw [if_neg h1, if_pos h2, if_neg (fun hac => h1 (hac.trans h2.symm))]
    intro hab _
    rw [← h2]
    exact hab
  · rcases eq_or_ne (k a) (k c) with h3 | h3
    · rw [if_neg h1, if_neg h2, if_pos h3]
      intro hab hbc
      have hba : SqlValue.le (k b) (k a) := by rw [h3]; exact hbc
      exact absurd (sqlValue_le_antisymm _ _ hab hba) h1
    · rw [if_neg h1, if_neg h2, if_neg h3]
      intro hab hbc
      exact sqlValue_le_trans _ _ _ hab hbc

theorem teamsInnerLe_total (x y : TeamRow) :
    ((if x.division = y.division then SqlValue.le x.name y.name
       else SqlValue.le x.division y.division) ||
     (if y.division = x.division then SqlValue.le y.name x.name
       else SqlValue.le y.division x.division)) = true :=
  lexBool_total (fun r => r.division) (fun u v => SqlValue.le u.name v.name)
    (fun u v => sqlValue_le_total u.name v.name) x y

theorem teamsInnerLe_trans (x y z : TeamRow) :
    (if x.division = y.division then SqlValue.le x.name y.name
      else SqlValue.le x.division y.division) = true →
    (if y.division = z.division then SqlValue.le y.name z.name
      else SqlValue.le y.division z.division) = true →
    (if x.division = z.division then SqlValue.le x.name z.name
      else SqlValue.le x.division z.division) = true :=
  lexBool_trans (fun r => r.division) (fun u v => SqlValue.le u.name v.name)
    (fun u v w => sqlValue_le_trans u.name v.name w.name) x y z

theorem teamsLe_total (a b : TeamRow) : (teamsLe a b || teamsLe b a) = true := by
  unfold teamsLe
  exact lexBool_total (fun r => r.conference)
    (fun x y => if x.division = y.division then SqlValue.le x.name y.name
      else SqlValue.le x.division y.division)
    teamsInnerLe_total a b

theorem teamsLe_trans (a b c : TeamRow) :
    teamsLe a b = true → teamsLe b c = true → teamsLe a c = true := by
  unfold teamsLe
  exact lexBool_trans (fun r => r.conference)
    (fun x y => if x.division = y.division then SqlValue.le x.name y.name
      else SqlValue.le x.division y.division)
    teamsInnerLe_trans a b c

theorem gameDatetimeDescLe_total (a b : GameRow) :
    gameDatetimeDescLe a b || gameDatetimeDescLe b a := by
  unfold gameDatetimeDescLe
  rw [Bool.or_comm]
  exact sqlValue_le_total a.game_datetime b.game_datetime

theorem gameDatetimeDescLe_trans (a b c : GameRow) :
    gameDatetimeDescLe a b → gameDatetimeDescLe b c → gameDatetimeDescLe a c := by
  unfold gameDatetimeDescLe
  intro h1 h2
  exact sqlValue_le_trans _ _ _ h2 h1

set_option maxRecDepth 16000 in
theorem games_params_align (season : Option Int) (team_uid : Option String) :
    (get_games_query season team_uid).params.length
      = countPlaceholders (get_games_query season team_uid).sql := by
  cases season <;> cases team_uid <;> simp [get_games_query, pushFilter] <;> decide

set_option maxRecDepth 16000 in
theorem seasonStats_params_align (season : Option Int) (team_uid : Option String) :
    (get_team_season_stats_query season team_uid).params.length
      = countPlaceholders (get_team_season_stats_query season team_uid).sql := by
  cases season <;> cases team_uid <;> simp [get_team_season_stats_query, pushFilter] <;> decide

set_option maxRecDepth 16000 in
theorem gameStats_params_align (game_uid : Option String) (team_uid : Option String) :
    (get_team_game_stats_query game_uid team_uid).params.length
      = countPlaceholders (get_team_game_stats_query game_uid team_uid).sql := by
  cases game_uid <;> cases team_uid <;> simp [get_team_game_stats_query, pushFilter] <;> decide

theorem runSelect_games (db : Database) (season : Option Int) (team_uid : Option String) :
    runSelect (get_games_query season team_uid) gameDatetimeDescLe GameRow.col db.games
      = .ok ((db.games.filter (specGameMatches season team_uid)).mergeSort gameDatetimeDescLe) := by
  unfold runSelect
  rw [if_neg (by rw [games_params_align]; simp)]
  congr 1
  congr 1
  exact List.filter_congr (fun r _ => gamesConds_eval season team_uid r)

theorem runSelect_teams (db : Database) :
    runSelect { sql := teamsSql, conds := [], params := [] } teamsLe TeamRow.col db.teams
      = .ok (db.teams.mergeSort teamsLe) := by
  unfold runSelect
  rw [if_neg (by decide)]
  congr 1
  congr 1
  exact List.filter_eq_self.mpr (fun r _ => rfl)

theorem runSelect_seasonStats (db : Database) (season : Option Int) (team_uid : Option String) :
    runSelect (get_team_season_stats_query season team_uid) seasonStatsDescLe
      SeasonStatRow.col db.team_season_stats
      = .ok ((db.team_season_stats.filter (specSeasonStatMatches season team_uid)).mergeSort
          seasonStatsDescLe) := by
  unfold runSelect
  rw [if_neg (by rw [seasonStats_params_align]; simp)]
  congr 1
  congr 1
  exact List.filter_congr (fun r _ => seasonStatsConds_eval season team_uid r)

theorem runSelect_gameStats (db : Database) (game_uid : Option String) (team_uid : Option String) :
    runSelect (get_team_game_stats_query game_uid team_uid) gameStatsDescLe
      GameStatRow.col db.team_game_stats
      = .ok ((db.team_game_stats.filter (specGameStatMatches game_uid team_uid)).mergeSort
          gameStatsDescLe) := by
  unfold runSelect
  rw [if_neg (by rw [gameStats_params_align]; simp)]
  congr 1
  congr 1
  exact List.filter_congr (fun r _ => gameStatsConds_eval game_uid team_uid r)

/-- C1: for every combination of the optional filters, `get_games` returns
exactly the rows of the games table satisfying the conjunction of the
present filters, sorted by `game_datetime` descending; with both filters
absent no predicate narrows the result: all rows are returned. -/
theorem C1_get_games_filters (env : Env) (db : Database) (season : Option Int)
    (team_uid : Option String) :
    get_games env db season team_uid
      = (Except.mapError RusqliteError.errorText (get_db_connection env) >>= fun _ =>
          ((db.games.filter (specGameMatches season team_uid)).mergeSort
            gameDatetimeDescLe).mapM decodeGame)
    ∧ runSelect (get_games_query season team_uid) gameDatetimeDescLe GameRow.col db.games
        = .ok ((db.games.filter (specGameMatches season team_uid)).mergeSort
            gameDatetimeDescLe)
    ∧ ((db.games.filter (specGameMatches season team_uid)).mergeSort
        gameDatetimeDescLe).Perm (db.games.filter (specGameMatches season team_uid))
    ∧ ((db.games.filter (specGameMatches season team_uid)).mergeSort
        gameDatetimeDescLe).Pairwise
          (fun a b => SqlValue.le b.game_datetime a.game_datetime = true)
    ∧ db.games.filter (specGameMatches none none) = db.games := by
  refine ⟨?_, runSelect_games db season team_uid, List.mergeSort_perm _ _, ?_, ?_⟩
  · unfold get_games
    cases get_db_connection env with
    | error e => rfl
    | ok u => simp [Except.mapError, runSelect_games db season team_uid, Bind.bind, Except.bind]
  · exact (List.sorted_mergeSort gameDatetimeDescLe_trans gameDatetimeDescLe_total _).imp
      (fun h => h)
  · exact List.filter_eq_self.mpr (fun r _ => by simp [specGameMatches])

/-- C2: with the `team_uid` filter present, a games row is selected exactly
when the value matches the home or the away side, the single filter binds
the same value to two positional parameters, and a matching row occurs in
the result exactly as often as in the table — in particular a row matching
on both sides is not double-counted. -/
theorem C2_team_filter_no_double_count (db : Database) (t : String) (r : GameRow) :
    (get_games_query none (some t)).params = [.text t, .text t]
    ∧ runSelect (get_games_query none (some t)) gameDatetimeDescLe GameRow.col db.games
        = .ok ((db.games.filter (specGameMatches none (some t))).mergeSort
            gameDatetimeDescLe)
    ∧ (r ∈ (db.games.filter (specGameMatches none (some t))).mergeSort gameDatetimeDescLe
        ↔ r ∈ db.games
          ∧ (r.home_team_uid == .text t || r.away_team_uid == .text t) = true)
    ∧ ((db.games.filter (specGameMatches none (some t))).mergeSort
        gameDatetimeDescLe).count r
        = (if (r.home_team_uid == .text t || r.away_team_uid == .text t) = true
           then db.games.count r else 0) := by
  refine ⟨by simp [get_games_query, pushFilter], runSelect_games db none (some t), ?_, ?_⟩
  · rw [List.mem_mergeSort, List.mem_filter]
    simp [specGameMatches]
  · rw [(List.mergeSort_perm _ _).count_eq, count_filter_eq]
    simp [specGameMatches]

set_option maxRecDepth 16000 in
/-- C3: in each query-composing operation, each present filter appends
exactly one ` AND `-clause, in the fixed declaration order of the filters
(season before team, game before team), and an absent filter contributes
no clause and no bound value. -/
theorem C3_clause_order (season : Option Int) (team_uid game_uid : Option String) :
    ((get_games_query season team_uid).sql
      = gamesBaseSql
        ++ (match season with | some _ => " AND season = ?" | none => "")
        ++ (match team_uid with
            | some _ => " AND (home_team_uid = ? OR away_team_uid = ?)"
            | none => "")
        ++ " ORDER BY game_datetime DESC"
    ∧ (get_games_query season team_uid).params
      = (match season with | some s => [.integer s] | none => [])
        ++ (match team_uid with | some tm => [.text tm, .text tm] | none => [])
    ∧ countAndClauses (get_games_query season team_uid).sql
      = (match season with | some _ => 1 | none => 0)
        + (match team_uid with | some _ => 1 | none => 0))
    ∧ ((get_team_season_stats_query season team_uid).sql
      = seasonStatsBaseSql
        ++ (match season with | some _ => " AND season = ?" | none => "")
        ++ (match team_uid with | some _ => " AND team_uid = ?" | none => "")
        ++ " ORDER BY season DESC, win_percentage DESC"
    ∧ (get_team_season_stats_query season team_uid).params
      = (match season with | some s => [.integer s] | none => [])
        ++ (match team_uid with | some tm => [.text tm] | none => [])
    ∧ countAndClauses (get_team_season_stats_query season team_uid).sql
      = (match season with | some _ => 1 | none => 0)
        + (match team_uid with | some _ => 1 | none => 0))
    ∧ ((get_team_game_stats_query game_uid team_uid).sql
      = gameStatsBaseSql
        ++ (match game_uid with | some _ => " AND game_uid = ?" | none => "")
        ++ (match team_uid with | some _ => " AND team_uid = ?" | none => "")
        ++ " ORDER BY game_uid DESC"
    ∧ (get_team_game_stats_query game_uid team_uid).params
      = (match game_uid with | some g => [.text g] | none => [])
        ++ (match team_uid with | some tm => [.text tm] | none => [])
    ∧ countAndClauses (get_team_game_stats_query game_uid team_uid).sql
      = (match game_uid with | some _ => 1 | none => 0)
        + (match team_uid with | some _ => 1 | none => 0)) := by
  cases season <;> cases team_uid <;> cases game_uid <;>
    exact ⟨⟨by simp [get_games_query, pushFilter, SqlCond.renderSql],
            by simp [get_games_query, pushFilter],
            by simp [get_games_query, pushFilter]; decide⟩,
           ⟨by simp [get_team_season_stats_query, pushFilter, SqlCond.renderSql],
            by simp [get_team_season_stats_query, pushFilter],
            by simp [get_team_season_stats_query, pushFilter]; decide⟩,
           ⟨by simp [get_team_game_stats_query, pushFilter, SqlCond.renderSql],
            by simp [get_team_game_stats_query, pushFilter],
            by simp [get_team_game_stats_query, pushFilter]; decide⟩⟩

set_option maxRecDepth 16000 in
/-- C9: in every query-composing operation and for every filter
combination, the number of `?` placeholders in the composed SQL equals the
length of the bound-parameter list, and the bound values appear in
placeholder order — for `get_games` with both filters present: the season
value, then the team value twice. -/
theorem C9_placeholder_binding_safety (season : Option Int) (team_uid game_uid : Option String)
    (s : Int) (t : String) :
    countPlaceholders (get_games_query season team_uid).sql
      = (get_games_query season team_uid).params.length
    ∧ countPlaceholders (get_team_season_stats_query season team_uid).sql
      = (get_team_season_stats_query season team_uid).params.length
    ∧ countPlaceholders (get_team_game_stats_query game_uid team_uid).sql
      = (get_team_game_stats_query game_uid team_uid).params.length
    ∧ (get_games_query (some s) (some t)).params = [.integer s, .text t, .text t]
    ∧ totalArity (get_games_query season team_uid).conds
      = (get_games_query season team_uid).params.length := by
  refine ⟨(games_params_align season team_uid).symm,
          (seasonStats_params_align season team_uid).symm,
          (gameStats_params_align game_uid team_uid).symm,
          by simp [get_games_query, pushFilter], ?_⟩
  cases season <;> cases team_uid <;>
    simp [get_games_query, pushFilter, totalArity, SqlCond.arity]

set_option maxRecDepth 16000 in
/-- C4: every query ends in its fixed, hardcoded `ORDER BY`, independent of
the filters: `get_teams` by conference, division, name (and its result is a
sorted permutation of the stored table, independent of insertion order);
`get_team_season_stats` by season descending then win percentage
descending; `get_team_game_stats` by game_uid descending. -/
theorem C4_fixed_order_by (db : Database) (season : Option Int)
    (team_uid game_uid : Option String) :
    ("ORDER BY conference, division, name\n    ".data.isSuffixOf teamsSql.data = true)
    ∧ (" ORDER BY season DESC, win_percentage DESC".data.isSuffixOf
        (get_team_season_stats_query season team_uid).sql.data = true)
    ∧ (" ORDER BY game_uid DESC".data.isSuffixOf
        (get_team_game_stats_query game_uid team_uid).sql.data = true)
    ∧ runSelect { sql := teamsSql, conds := [], params := [] } teamsLe TeamRow.col db.teams
        = .ok (db.teams.mergeSort teamsLe)
    ∧ (db.teams.mergeSort teamsLe).Perm db.teams
    ∧ (db.teams.mergeSort teamsLe).Pairwise (fun a b => teamsLe a b = true) := by
  refine ⟨by decide, ?_, ?_, runSelect_teams db, List.mergeSort_perm _ _,
    List.sorted_mergeSort teamsLe_trans teamsLe_total db.teams⟩
  · cases season <;> cases team_uid <;>
      simp [get_team_season_stats_query, pushFilter, SqlCond.renderSql] <;> decide
  · cases game_uid <;> cases team_uid <;>
      simp [get_team_game_stats_query, pushFilter, SqlCond.renderSql] <;> decide

/-- C10: unlike `get_games`, the `team_uid` filter of the two stats
queries is a plain equality on the single `team_uid` column: with the
filter present, exactly the rows whose `team_uid` column equals the value
are returned. -/
theorem C10_stats_team_filter_plain_eq (db : Database) (t : String)
    (r1 : SeasonStatRow) (r2 : GameStatRow) :
    runSelect (get_team_season_stats_query none (some t)) seasonStatsDescLe
        SeasonStatRow.col db.team_season_stats
      = .ok ((db.team_season_stats.filter (fun r => r.team_uid == .text t)).mergeSort
          seasonStatsDescLe)
    ∧ (r1 ∈ (db.team_season_stats.filter (fun r => r.team_uid == .text t)).mergeSort
          seasonStatsDescLe
        ↔ r1 ∈ db.team_season_stats ∧ r1.team_uid = .text t)
    ∧ runSelect (get_team_game_stats_query none (some t)) gameStatsDescLe
        GameStatRow.col db.team_game_stats
      = .ok ((db.team_game_stats.filter (fun r => r.team_uid == .text t)).mergeSort
          gameStatsDescLe)
    ∧ (r2 ∈ (db.team_game_stats.filter (fun r => r.team_uid == .text t)).mergeSort
          gameStatsDescLe
        ↔ r2 ∈ db.team_game_stats ∧ r2.team_uid = .text t) := by
  refine ⟨?_, ?_, ?_, ?_⟩
  · rw [runSelect_seasonStats db none (some t)]
    congr 2
  · simp [List.mem_mergeSort, List.mem_filter]
  · rw [runSelect_gameStats db none (some t)]
    congr 2
  · simp [List.mem_mergeSort, List.mem_filter]

/-- C5: the health check never surfaces an error: it returns a success
string in every environment — naming the configured path when the file is
missing, embedding the engine's error text when the connection or the
count query fails, and embedding the games row count when healthy. -/
theorem C5_health_check_never_fails (env : Env) (n : Int) (e : String) :
    (∃ msg, test_db_connection env = .ok msg)
    ∧ test_db_connection { env with fileExists := false }
        = .ok ("Database file not found at: " ++ db_path)
    ∧ test_db_connection ⟨true, .ok (), .ok (), .ok (), .ok n⟩
        = .ok ("Database connected successfully. Games count: " ++ toString n)
    ∧ test_db_connection ⟨true, .error e, env.validateResult, env.countPrepareResult,
          env.countRowResult⟩
        = .ok ("Database connection error: " ++ e)
    ∧ test_db_connection ⟨true, .ok (), .error e, env.countPrepareResult,
          env.countRowResult⟩
        = .ok ("Database connection error: " ++ e)
    ∧ test_db_connection ⟨true, .ok (), .ok (), .error e, env.countRowResult⟩
        = .ok ("Error preparing query: " ++ e)
    ∧ test_db_connection ⟨true, .ok (), .ok (), .ok (), .error e⟩
        = .ok ("Error querying games: " ++ e) := by
  refine ⟨?_, rfl, rfl, rfl, rfl, rfl, rfl⟩
  rcases env with ⟨fe, o, v, p, c⟩
  cases fe <;> cases o <;> cases v <;> cases p <;> cases c <;>
    exact ⟨_, rfl⟩

/-- C6 counterexample: with the database file missing, the error returned
by `get_db_connection` carries the fixed message `Database file not found`,
which does not contain the configured path (the path is only written to
the stderr log). -/
theorem C6_counterexample :
    get_db_connection ⟨false, .ok (), .ok (), .ok (), .ok 0⟩
      = .error (.sqliteFailure SQLITE_CANTOPEN (some "Database file not found"))
    ∧ RusqliteError.errorText
        (.sqliteFailure SQLITE_CANTOPEN (some "Database file not found"))
      = "Database file not found"
    ∧ ¬ ∃ pre post, RusqliteError.errorText
        (.sqliteFailure SQLITE_CANTOPEN (some "Database file not found"))
        = pre ++ db_path ++ post := by
  refine ⟨rfl, rfl, ?_⟩
  rintro ⟨pre, post, h⟩
  simp only [RusqliteError.errorText] at h
  have hl := congrArg String.length h
  rw [String.length_append, String.length_append] at hl
  have h1 : ("Database file not found" : String).length = 23 := by decide
  have h2 : db_path.length = 55 := by decide
  rw [h1, h2] at hl
  omega

/-- C6 (amended): `get_db_connection` first checks that the database file
exists; if not, it fails with a `SqliteFailure` carrying `SQLITE_CANTOPEN`
and the fixed message `Database file not found` (the path appears only in
the stderr log, not in the returned error); otherwise it opens a
connection and validates it with `SELECT 1`, and any failure of the open
or the validation surfaces as the engine's own error. -/
theorem C6_connection_provider (env : Env) (e : String) :
    get_db_connection { env with fileExists := false }
      = .error (.sqliteFailure SQLITE_CANTOPEN (some "Database file not found"))
    ∧ get_db_connection ⟨true, .error e, env.validateResult, env.countPrepareResult,
          env.countRowResult⟩
      = .error (.engine e)
    ∧ get_db_connection ⟨true, .ok (), .error e, env.countPrepareResult,
          env.countRowResult⟩
      = .error (.engine e)
    ∧ get_db_connection ⟨true, .ok (), .ok (), env.countPrepareResult,
          env.countRowResult⟩
      = .ok () :=
  ⟨rfl, rfl, rfl, rfl⟩

theorem pipeline_ok_inv {ρ β : Type} {conn : Except String Unit}
    {sel : Except String (List ρ)} {rows : List ρ} {dec : ρ → Except String β}
    (hsel : sel = .ok rows) (ys : List β)
    (h : (conn >>= fun _ => sel >>= fun rs => rs.mapM dec) = .ok ys) :
    ys.length = rows.length ∧ ∀ r ∈ rows, ∃ y, dec r = .ok y := by
  rw [exceptBind_ok] at h
  obtain ⟨u, _, h⟩ := h
  rw [exceptBind_ok] at h
  obtain ⟨rs, hrs, h⟩ := h
  rw [hsel] at hrs
  injection hrs with hrs
  subst hrs
  exact ⟨mapM_ok_length h, mapM_ok_mem h⟩

theorem pipeline_fail {ρ β : Type} {conn : Except String Unit}
    {sel : Except String (List ρ)} {rows : List ρ} {dec : ρ → Except String β}
    (hsel : sel = .ok rows) {r : ρ} (hr : r ∈ rows) (hfail : ∀ y, dec r ≠ .ok y)
    (ys : List β) :
    (conn >>= fun _ => sel >>= fun rs => rs.mapM dec) ≠ .ok ys := by
  intro h
  obtain ⟨-, hall⟩ := pipeline_ok_inv hsel ys h
  obtain ⟨y, hy⟩ := hall r hr
  exact hfail y hy

/-- C7: in each of the four data operations, a row whose decoding fails
makes the whole call fail — no partial list is ever returned; conversely a
successful call has decoded every selected row, yielding the complete
mapped result set. -/
theorem C7_no_partial_results (env : Env) (db : Database) (season : Option Int)
    (team_uid game_uid : Option String) :
    ((∀ ys, get_teams env db = .ok ys →
        ys.length = (db.teams.mergeSort teamsLe).length
        ∧ ∀ r ∈ db.teams.mergeSort teamsLe, ∃ y, decodeTeam r = .ok y)
    ∧ ∀ r ∈ db.teams.mergeSort teamsLe, (∀ y, decodeTeam r ≠ .ok y) →
        ∀ ys, get_teams env db ≠ .ok ys)
    ∧ ((∀ ys, get_games env db season team_uid = .ok ys →
        ys.length = ((db.games.filter (specGameMatches season team_uid)).mergeSort
            gameDatetimeDescLe).length
        ∧ ∀ r ∈ (db.games.filter (specGameMatches season team_uid)).mergeSort
            gameDatetimeDescLe, ∃ y, decodeGame r = .ok y)
    ∧ ∀ r ∈ (db.games.filter (specGameMatches season team_uid)).mergeSort
          gameDatetimeDescLe, (∀ y, decodeGame r ≠ .ok y) →
        ∀ ys, get_games env db season team_uid ≠ .ok ys)
    ∧ ((∀ ys, get_team_season_stats env db season team_uid = .ok ys →
        ys.length = ((db.team_season_stats.filter
            (specSeasonStatMatches season team_uid)).mergeSort seasonStatsDescLe).length
        ∧ ∀ r ∈ (db.team_season_stats.filter
            (specSeasonStatMatches season team_uid)).mergeSort seasonStatsDescLe,
            ∃ y, decodeSeasonStat r = .ok y)
    ∧ ∀ r ∈ (db.team_season_stats.filter
          (specSeasonStatMatches season team_uid)).mergeSort seasonStatsDescLe,
        (∀ y, decodeSeasonStat r ≠ .ok y) →
        ∀ ys, get_team_season_stats env db season team_uid ≠ .ok ys)
    ∧ ((∀ ys, get_team_game_stats env db game_uid team_uid = .ok ys →
        ys.length = ((db.team_game_stats.filter
            (specGameStatMatches game_uid team_uid)).mergeSort gameStatsDescLe).length
        ∧ ∀ r ∈ (db.team_game_stats.filter
            (specGameStatMatches game_uid team_uid)).mergeSort gameStatsDescLe,
            ∃ y, decodeGameStat r = .ok y)
    ∧ ∀ r ∈ (db.team_game_stats.filter
          (specGameStatMatches game_uid team_uid)).mergeSort gameStatsDescLe,
        (∀ y, decodeGameStat r ≠ .ok y) →
        ∀ ys, get_team_game_stats env db game_uid team_uid ≠ .ok ys) := by
  refine ⟨⟨?_, ?_⟩, ⟨?_, ?_⟩, ⟨?_, ?_⟩, ⟨?_, ?_⟩⟩
  · intro ys h
    unfold get_teams at h
    exact pipeline_ok_inv (runSelect_teams db) ys h
  · intro r hr hfail ys
    unfold get_teams
    exact pipeline_fail (runSelect_teams db) hr hfail ys
  · intro ys h
    unfold get_games at h
    exact pipeline_ok_inv (runSelect_games db season team_uid) ys h
  · intro r hr hfail ys
    unfold get_games
    exact pipeline_fail (runSelect_games db season team_uid) hr hfail ys
  · intro ys h
    unfold get_team_season_stats at h
    exact pipeline_ok_inv (runSelect_seasonStats db season team_uid) ys h
  · intro r hr hfail ys
    unfold get_team_season_stats
    exact pipeline_fail (runSelect_seasonStats db season team_uid) hr hfail ys
  · intro ys h
    unfold get_team_game_stats at h
    exact pipeline_ok_inv (runSelect_gameStats db game_uid team_uid) ys h
  · intro r hr hfail ys
    unfold get_team_game_stats
    exact pipeline_fail (runSelect_gameStats db game_uid team_uid) hr hfail ys

/-- A healthy environment: file present, open/validation/count all succeed. -/
def envOkAll : Env := ⟨true, .ok (), .ok (), .ok (), .ok 0⟩

/-- A teams row whose non-nullable `team_uid` column is NULL, so its
decoding fails. -/
def badTeamRow : TeamRow := ⟨.null, .null, .null, .null, .null, .null, .null, .null⟩

/-- A database whose single teams row fails to decode. -/
def dbBad : Database := ⟨[badTeamRow], [], [], []⟩

theorem C7_no_partial_results_witness : get_teams envOkAll dbBad ≠ .ok [] := by
  have hmem : badTeamRow ∈ dbBad.teams.mergeSort teamsLe :=
    List.mem_mergeSort.mpr (by simp [dbBad])
  have hdec : decodeTeam badTeamRow = .error "Invalid column type" := rfl
  exact (C7_no_partial_results envOkAll dbBad none none none).1.2 badTeamRow hmem
    (fun y h => by rw [hdec] at h; exact Except.noConfusion h) []

theorem getText_ok {v : SqlValue} {s : String} (h : getText v = .ok s) : v = .text s := by
  cases v <;> simp_all [getText]

theorem getI32_ok {v : SqlValue} {i : Int} (h : getI32 v = .ok i) : v = .integer i := by
  cases v with
  | integer j =>
      simp only [getI32] at h
      split at h
      · injection h with h
        subst h
        rfl
      · exact Except.noConfusion h
  | null => exact Except.noConfusion h
  | real r => exact Except.noConfusion h
  | text s => exact Except.noConfusion h

theorem getOptText_ok {v : SqlValue} {o : Option String} (h : getOptText v = .ok o) :
    (o = none ↔ v = .null) ∧ ∀ s, o = some s → v = .text s := by
  cases v with
  | null =>
      injection h with h
      subst h
      simp
  | text u =>
      simp only [getOptText, getText, Except.map] at h
      injection h with h
      subst h
      simp
  | integer i => exact Except.noConfusion h
  | real r => exact Except.noConfusion h

theorem getOptI32_ok {v : SqlValue} {o : Option Int} (h : getOptI32 v = .ok o) :
    (o = none ↔ v = .null) ∧ ∀ i, o = some i → v = .integer i := by
  cases v with
  | null =>
      injection h with h
      subst h
      simp
  | integer j =>
      simp only [getOptI32, getI32] at h
      split at h
      · simp only [Except.map] at h
        injection h with h
        subst h
        simp
      · exact Except.noConfusion h
  | text s => exact Except.noConfusion h
  | real r => exact Except.noConfusion h

theorem getOptF64_ok {v : SqlValue} {o : Option F64} (h : getOptF64 v = .ok o) :
    (o = none ↔ v = .null)
    ∧ ∀ w, o = some w → v = .real w ∨ ∃ i, v = .integer i ∧ w = .ofInt i := by
  cases v with
  | null =>
      injection h with h
      subst h
      simp
  | real r =>
      simp only [getOptF64, getF64, Except.map] at h
      injection h with h
      subst h
      simp
  | integer i =>
      simp only [getOptF64, getF64, Except.map] at h
      injection h with h
      subst h
      constructor
      · simp
      · intro w hw
        injection hw with hw
        exact Or.inr ⟨i, rfl, hw.symm⟩
  | text s => exact Except.noConfusion h

/-- C8: a decoded record represents a stored NULL in an optional column as
`none` — never as a default value — and a present stored value as exactly
that value, for every optional column of all four record kinds; the
non-optional columns (e.g. `Team.name`, `Game.season`) have no absent
representation: they decode to plain values and reject NULL. -/
theorem C8_optional_null_roundtrip (r : GameRow) (g : Game) (tr : TeamRow) (tm : Team)
    (sr : SeasonStatRow) (ss : TeamSeasonStat) (gr : GameStatRow) (gs : TeamGameStat)
    (hg : decodeGame r = .ok g) (ht : decodeTeam tr = .ok tm)
    (hs : decodeSeasonStat sr = .ok ss) (hq : decodeGameStat gr = .ok gs) :
    (((g.week = none ↔ r.week = .null)
    ∧ (g.game_type = none ↔ r.game_type = .null)
    ∧ (g.home_team_uid = none ↔ r.home_team_uid = .null)
    ∧ (g.away_team_uid = none ↔ r.away_team_uid = .null)
    ∧ (g.game_datetime = none ↔ r.game_datetime = .null)
    ∧ (g.venue = none ↔ r.venue = .null)
    ∧ (g.home_score = none ↔ r.home_score = .null)
    ∧ (g.away_score = none ↔ r.away_score = .null)
    ∧ (g.overtime = none ↔ r.overtime = .null)
    ∧ (g.weather_temp = none ↔ r.weather_temp = .null)
    ∧ (g.weather_condition = none ↔ r.weather_condition = .null)
    ∧ (g.attendance = none ↔ r.attendance = .null))
    ∧ ((∀ s, g.game_type = some s → r.game_type = .text s)
    ∧ (∀ s, g.home_team_uid = some s → r.home_team_uid = .text s)
    ∧ (∀ s, g.away_team_uid = some s → r.away_team_uid = .text s)
    ∧ (∀ s, g.game_datetime = some s → r.game_datetime = .text s)
    ∧ (∀ s, g.venue = some s → r.venue = .text s)
    ∧ (∀ s, g.weather_condition = some s → r.weather_condition = .text s)
    ∧ (∀ i, g.home_score = some i → r.home_score = .integer i)
    ∧ (∀ i, g.away_score = some i → r.away_score = .integer i)
    ∧ (∀ i, g.overtime = some i → r.overtime = .integer i)
    ∧ (∀ i, g.attendance = some i → r.attendance = .integer i)
    ∧ (∀ w, g.week = some w →
        r.week = .real w ∨ ∃ i, r.week = .integer i ∧ w = .ofInt i)
    ∧ (∀ w, g.weather_temp = some w →
        r.weather_temp = .real w ∨ ∃ i, r.weather_temp = .integer i ∧ w = .ofInt i))
    ∧ (r.game_uid = .text g.game_uid ∧ r.season = .integer g.season))
    ∧ (((tm.city = none ↔ tr.city = .null)
    ∧ (tm.abbreviation = none ↔ tr.abbreviation = .null)
    ∧ (tm.stadium_name = none ↔ tr.stadium_name = .null)
    ∧ (tm.stadium_capacity = none ↔ tr.stadium_capacity = .null)
    ∧ (tm.conference = none ↔ tr.conference = .null)
    ∧ (tm.division = none ↔ tr.division = .null))
    ∧ ((∀ s, tm.city = some s → tr.city = .text s)
    ∧ (∀ s, tm.abbreviation = some s → tr.abbreviation = .text s)
    ∧ (∀ s, tm.stadium_name = some s → tr.stadium_name = .text s)
    ∧ (∀ i, tm.stadium_capacity = some i → tr.stadium_capacity = .integer i)
    ∧ (∀ s, tm.conference = some s → tr.conference = .text s)
    ∧ (∀ s, tm.division = some s → tr.division = .text s))
    ∧ (tr.team_uid = .text tm.team_uid ∧ tr.name = .text tm.name))
    ∧ (((ss.wins = none ↔ sr.wins = .null)
    ∧ (ss.losses = none ↔ sr.losses = .null)
    ∧ (ss.ties = none ↔ sr.ties = .null)
    ∧ (ss.win_percentage = none ↔ sr.win_percentage = .null))
    ∧ ((∀ i, ss.wins = some i → sr.wins = .integer i)
    ∧ (∀ i, ss.losses = some i → sr.losses = .integer i)
    ∧ (∀ i, ss.ties = some i → sr.ties = .integer i)
    ∧ (∀ w, ss.win_percentage = some w →
        sr.win_percentage = .real w ∨ ∃ i, sr.win_percentage = .integer i ∧ w = .ofInt i))
    ∧ (sr.stat_uid = .text ss.stat_uid ∧ sr.team_uid = .text ss.team_uid
      ∧ sr.season = .integer ss.season))
    ∧ (((gs.is_home_team = none ↔ gr.is_home_team = .null)
    ∧ (gs.total_yards = none ↔ gr.total_yards = .null)
    ∧ (gs.passing_yards = none ↔ gr.passing_yards = .null)
    ∧ (gs.rushing_yards = none ↔ gr.rushing_yards = .null)
    ∧ (gs.first_downs = none ↔ gr.first_downs = .null)
    ∧ (gs.turnovers = none ↔ gr.turnovers = .null)
    ∧ (gs.penalties = none ↔ gr.penalties = .null))
    ∧ ((∀ i, gs.is_home_team = some i → gr.is_home_team = .integer i)
    ∧ (∀ i, gs.total_yards = some i → gr.total_yards = .integer i)
    ∧ (∀ i, gs.passing_yards = some i → gr.passing_yards = .integer i)
    ∧ (∀ i, gs.rushing_yards = some i → gr.rushing_yards = .integer i)
    ∧ (∀ i, gs.first_downs = some i → gr.first_downs = .integer i)
    ∧ (∀ i, gs.turnovers = some i → gr.turnovers = .integer i)
    ∧ (∀ i, gs.penalties = some i → gr.penalties = .integer i))
    ∧ (gr.stat_uid = .text gs.stat_uid ∧ gr.game_uid = .text gs.game_uid
      ∧ gr.team_uid = .text gs.team_uid)) := by
  simp only [decodeGame, exceptBind_ok, pure, Except.pure, Except.ok.injEq] at hg
  obtain ⟨guid, h1, seas, h2, wk, h3, gt, h4, hu, h5, au, h6, gdt, h7, ven, h8,
    hsc, h9, asc, h10, ot, h11, wt, h12, wc, h13, att, h14, hrec⟩ := hg
  subst hrec
  simp only [decodeTeam, exceptBind_ok, pure, Except.pure, Except.ok.injEq] at ht
  obtain ⟨tuid, k1, city, k2, nm, k3, abbr, k4, sn, k5, scap, k6, conf, k7, dv, k8,
    krec⟩ := ht
  subst krec
  simp only [decodeSeasonStat, exceptBind_ok, pure, Except.pure, Except.ok.injEq] at hs
  obtain ⟨suid, m1, stuid, m2, sseas, m3, wins, m4, losses, m5, ties, m6, wpct, m7,
    mrec⟩ := hs
  subst mrec
  simp only [decodeGameStat, exceptBind_ok, pure, Except.pure, Except.ok.injEq] at hq
  obtain ⟨quid, n1, qguid, n2, qtuid, n3, iht, n4, ty, n5, py, n6, ry, n7, fd, n8,
    tov, n9, pen, n10, nrec⟩ := hq
  subst nrec
  refine ⟨⟨⟨(getOptF64_ok h3).1, (getOptText_ok h4).1, (getOptText_ok h5).1,
      (getOptText_ok h6).1, (getOptText_ok h7).1, (getOptText_ok h8).1,
      (getOptI32_ok h9).1, (getOptI32_ok h10).1, (getOptI32_ok h11).1,
      (getOptF64_ok h12).1, (getOptText_ok h13).1, (getOptI32_ok h14).1⟩,
    ⟨(getOptText_ok h4).2, (getOptText_ok h5).2, (getOptText_ok h6).2,
      (getOptText_ok h7).2, (getOptText_ok h8).2, (getOptText_ok h13).2,
      (getOptI32_ok h9).2, (getOptI32_ok h10).2, (getOptI32_ok h11).2,
      (getOptI32_ok h14).2, (getOptF64_ok h3).2, (getOptF64_ok h12).2⟩,
    getText_ok h1, getI32_ok h2⟩,
    ⟨⟨(getOptText_ok k2).1, (getOptText_ok k4).1, (getOptText_ok k5).1,
      (getOptI32_ok k6).1, (getOptText_ok k7).1, (getOptText_ok k8).1⟩,
    ⟨(getOptText_ok k2).2, (getOptText_ok k4).2, (getOptText_ok k5).2,
      (getOptI32_ok k6).2, (getOptText_ok k7).2, (getOptText_ok k8).2⟩,
    getText_ok k1, getText_ok k3⟩,
    ⟨⟨(getOptI32_ok m4).1, (getOptI32_ok m5).1, (getOptI32_ok m6).1,
      (getOptF64_ok m7).1⟩,
    ⟨(getOptI32_ok m4).2, (getOptI32_ok m5).2, (getOptI32_ok m6).2,
      (getOptF64_ok m7).2⟩,
    getText_ok m1, getText_ok m2, getI32_ok m3⟩,
    ⟨⟨(getOptI32_ok n4).1, (getOptI32_ok n5).1, (getOptI32_ok n6).1,
      (getOptI32_ok n7).1, (getOptI32_ok n8).1, (getOptI32_ok n9).1,
      (getOptI32_ok n10).1⟩,
    ⟨(getOptI32_ok n4).2, (getOptI32_ok n5).2, (getOptI32_ok n6).2,
      (getOptI32_ok n7).2, (getOptI32_ok n8).2, (getOptI32_ok n9).2,
      (getOptI32_ok n10).2⟩,
    getText_ok n1, getText_ok n2, getText_ok n3⟩⟩

/-- A concrete games row mixing stored values and NULLs. -/
def gameRowW : GameRow :=
  ⟨.text "G1", .integer 2023, .null, .text "REG", .text "TA", .null,
   .text "2023-09-10", .null, .integer 21, .integer 17, .null,
   .real (.ofBits 100), .null, .null⟩

/-- The decoded form of `gameRowW`. -/
def gameW : Game :=
  ⟨"G1", 2023, none, some "REG", some "TA", none, some "2023-09-10", none,
   some 21, some 17, none, some (.ofBits 100), none, none⟩

/-- A concrete teams row mixing stored values and NULLs. -/
def teamRowW : TeamRow :=
  ⟨.text "TA", .null, .text "Hawks", .null, .null, .null, .text "NFC", .null⟩

/-- The decoded form of `teamRowW`. -/
def teamW : Team := ⟨"TA", none, "Hawks", none, none, none, some "NFC", none⟩

/-- A concrete season-stats row mixing stored values and NULLs. -/
def seasonStatRowW : SeasonStatRow :=
  ⟨.text "S1", .text "TA", .integer 2023, .integer 10, .null, .integer 0,
   .real (.ofBits 205)⟩

/-- The decoded form of `seasonStatRowW`. -/
def seasonStatW : TeamSeasonStat :=
  ⟨"S1", "TA", 2023, some 10, none, some 0, some (.ofBits 205)⟩

/-- A concrete game-stats row mixing stored values and NULLs. -/
def gameStatRowW : GameStatRow :=
  ⟨.text "GS1", .text "G1", .text "TA", .integer 1, .integer 350, .null,
   .integer 120, .null, .null, .integer 5⟩

/-- The decoded form of `gameStatRowW`. -/
def gameStatW : TeamGameStat :=
  ⟨"GS1", "G1", "TA", some 1, some 350, none, some 120, none, none, some 5⟩

theorem C8_optional_null_roundtrip_witness :
    (gameW.week = none ↔ gameRowW.week = SqlValue.null)
    ∧ gameRowW.season = .integer gameW.season
    ∧ (teamW.stadium_capacity = none ↔ teamRowW.stadium_capacity = SqlValue.null)
    ∧ (seasonStatW.losses = none ↔ seasonStatRowW.losses = SqlValue.null)
    ∧ (gameStatW.passing_yards = none ↔ gameStatRowW.passing_yards = SqlValue.null) := by
  have h := C8_optional_null_roundtrip gameRowW gameW teamRowW teamW
    seasonStatRowW seasonStatW gameStatRowW gameStatW rfl rfl rfl rfl
  exact ⟨h.1.1.1, h.1.2.2.2, h.2.1.1.2.2.2.1, h.2.2.1.1.2.1, h.2.2.2.1.2.2.1⟩
